import Mathlib

/-!
Shallow embedding of the SWGOH automation utility layer
(src/utils/error_handler.py and src/utils/logger.py) together with
theorems settling the specification claims about it.

Modelling conventions:
* Python callables that can raise are embedded as Lean functions
  returning `Option Bool` (`none` models a raised exception,
  `some b` a normal return of `b`).
* Wall-clock time is passed explicitly: each operation that reads
  `datetime.now()` takes the relevant timestamp (or elapsed seconds)
  as an argument.  A Python `timedelta` of `e` total seconds has
  `.seconds == e % 86400` (the seconds-of-day component) and
  `timedelta(days = n)` spans `n * 86400` seconds.
* `time.sleep` calls are counted rather than performed.
* Mutable objects become explicit state threaded through functions.
-/

namespace SWGOH

/-- Error severity levels (class ErrorSeverity in error_handler.py). -/
inductive ErrorSeverity where
  | LOW
  | MEDIUM
  | HIGH
  | CRITICAL
deriving DecidableEq, Repr

/-- Error categories (class ErrorCategory in error_handler.py). -/
inductive ErrorCategory where
  | SCREEN_RECOGNITION
  | NETWORK
  | GAME_STATE
  | RESOURCE
  | CONFIGURATION
  | AI_DECISION
  | USER_INPUT
  | SYSTEM
deriving DecidableEq, Repr

/-- Detailed error information (dataclass ErrorInfo).  The exception is
kept as its description string, the context as a string-keyed map. -/
structure ErrorInfo where
  exception : String
  severity : ErrorSeverity
  category : ErrorCategory
  context : List (String × String)
  timestamp : Nat
  recovery_attempts : Nat
  resolved : Bool
deriving DecidableEq, Repr

/-- Recovery action definition (dataclass RecoveryAction).  The stored
callable receives the current ErrorInfo record; `none` models the
callable raising, `some b` a normal return of `b`. -/
structure RecoveryAction where
  name : String
  action : ErrorInfo → Option Bool
  max_attempts : Nat
  delay_between_attempts : ℚ
  conditions : Option (List String)

/-- The eleven recovery-method callables of ErrorRecoveryManager
(wait_and_retry, ..., skip_current_action).  Their behaviour is a
parameter of the model; in the source every one of them returns True. -/
structure RecoveryMethods where
  wait_and_retry : ErrorInfo → Option Bool
  adjust_confidence_threshold : ErrorInfo → Option Bool
  refresh_screen : ErrorInfo → Option Bool
  navigate_to_main_menu : ErrorInfo → Option Bool
  restart_game : ErrorInfo → Option Bool
  wait_for_network : ErrorInfo → Option Bool
  check_connection : ErrorInfo → Option Bool
  clear_cache : ErrorInfo → Option Bool
  restart_automation : ErrorInfo → Option Bool
  fallback_to_default_action : ErrorInfo → Option Bool
  skip_current_action : ErrorInfo → Option Bool

/-- The recovery-method stubs as implemented in the source: every
method returns True on every invocation. -/
def stubRecoveryMethods : RecoveryMethods where
  wait_and_retry := fun _ => some true
  adjust_confidence_threshold := fun _ => some true
  refresh_screen := fun _ => some true
  navigate_to_main_menu := fun _ => some true
  restart_game := fun _ => some true
  wait_for_network := fun _ => some true
  check_connection := fun _ => some true
  clear_cache := fun _ => some true
  restart_automation := fun _ => some true
  fallback_to_default_action := fun _ => some true
  skip_current_action := fun _ => some true

/-- Hypothetical recovery methods that report failure on every
execution (used to model a forced, unrecoverable failure). -/
def allFailingMethods : RecoveryMethods where
  wait_and_retry := fun _ => some false
  adjust_confidence_threshold := fun _ => some false
  refresh_screen := fun _ => some false
  navigate_to_main_menu := fun _ => some false
  restart_game := fun _ => some false
  wait_for_network := fun _ => some false
  check_connection := fun _ => some false
  clear_cache := fun _ => some false
  restart_automation := fun _ => some false
  fallback_to_default_action := fun _ => some false
  skip_current_action := fun _ => some false

/-- ErrorRecoveryManager.setup_recovery_actions: the per-category
registration table.  Categories absent from the Python dict map to
`none`. -/
def setup_recovery_actions (m : RecoveryMethods) :
    ErrorCategory → Option (List RecoveryAction) := fun c =>
  match c with
  | ErrorCategory.SCREEN_RECOGNITION => some
      [{ name := "wait_and_retry", action := m.wait_and_retry,
         max_attempts := 3, delay_between_attempts := 2, conditions := none },
       { name := "adjust_confidence_threshold", action := m.adjust_confidence_threshold,
         max_attempts := 2, delay_between_attempts := 1, conditions := none },
       { name := "refresh_screen", action := m.refresh_screen,
         max_attempts := 2, delay_between_attempts := 1, conditions := none }]
  | ErrorCategory.GAME_STATE => some
      [{ name := "navigate_to_main_menu", action := m.navigate_to_main_menu,
         max_attempts := 3, delay_between_attempts := 1, conditions := none },
       { name := "restart_game", action := m.restart_game,
         max_attempts := 1, delay_between_attempts := 1, conditions := none }]
  | ErrorCategory.NETWORK => some
      [{ name := "wait_for_network", action := m.wait_for_network,
         max_attempts := 5, delay_between_attempts := 5, conditions := none },
       { name := "check_connection", action := m.check_connection,
         max_attempts := 2, delay_between_attempts := 1, conditions := none }]
  | ErrorCategory.RESOURCE => some
      [{ name := "clear_cache", action := m.clear_cache,
         max_attempts := 1, delay_between_attempts := 1, conditions := none },
       { name := "restart_automation", action := m.restart_automation,
         max_attempts := 1, delay_between_attempts := 1, conditions := none }]
  | ErrorCategory.AI_DECISION => some
      [{ name := "fallback_to_default_action", action := m.fallback_to_default_action,
         max_attempts := 2, delay_between_attempts := 1, conditions := none },
       { name := "skip_current_action", action := m.skip_current_action,
         max_attempts := 1, delay_between_attempts := 1, conditions := none }]
  | _ => none

/-- Result of one run of the recovery loop: the returned flag, the
mutated ErrorInfo record, and the number of time.sleep calls made. -/
structure AttemptResult where
  success : Bool
  error_info : ErrorInfo
  sleeps : Nat
deriving DecidableEq, Repr

/-- The for-loop of ErrorRecoveryManager.attempt_recovery.  Each
action is skipped when the record's shared attempt counter already
reached that action's max_attempts; otherwise the loop sleeps for the
action's delay (counted), executes the action, and increments the
counter only when the action returned without raising.  A raising
action is caught and the loop proceeds to the next action. -/
def attemptLoop : List RecoveryAction → ErrorInfo → Nat → AttemptResult
  | [], err, sleeps => { success := false, error_info := err, sleeps := sleeps }
  | a :: rest, err, sleeps =>
    if err.recovery_attempts ≥ a.max_attempts then
      attemptLoop rest err sleeps
    else
      let sleeps1 := if a.delay_between_attempts > 0 then sleeps + 1 else sleeps
      match a.action err with
      | none => attemptLoop rest err sleeps1
      | some true =>
          { success := true,
            error_info := { err with recovery_attempts := err.recovery_attempts + 1 },
            sleeps := sleeps1 }
      | some false =>
          attemptLoop rest { err with recovery_attempts := err.recovery_attempts + 1 } sleeps1

/-- ErrorRecoveryManager.attempt_recovery: look up the category's
actions (returning False when the category is unregistered) and run
the loop. -/
def attempt_recovery (recovery_actions : ErrorCategory → Option (List RecoveryAction))
    (error_info : ErrorInfo) : AttemptResult :=
  match recovery_actions error_info.category with
  | none => { success := false, error_info := error_info, sleeps := 0 }
  | some actions => attemptLoop actions error_info 0

/-- The recovery_stats dict of ErrorRecoveryManager. -/
structure RecoveryStats where
  total_errors : Nat
  resolved_errors : Nat
  failed_recoveries : Nat
deriving DecidableEq, Repr

/-- The mutable state of an ErrorRecoveryManager: error_history and
recovery_stats. -/
structure ManagerState where
  error_history : List ErrorInfo
  recovery_stats : RecoveryStats
deriving DecidableEq, Repr

/-- A freshly constructed manager (ErrorRecoveryManager.__init__). -/
def initManagerState : ManagerState :=
  { error_history := [],
    recovery_stats := { total_errors := 0, resolved_errors := 0, failed_recoveries := 0 } }

/-- Result of ErrorRecoveryManager.handle_error: the returned boolean,
the manager's new state, and the number of sleeps performed. -/
structure HandleResult where
  recovered : Bool
  state : ManagerState
  sleeps : Nat
deriving DecidableEq, Repr

/-- ErrorRecoveryManager.handle_error: build a fresh ErrorInfo with a
zero attempt counter, append it to history, bump total_errors, attempt
recovery, then mark the record resolved and bump resolved_errors on
success, or bump failed_recoveries on failure.  (In the source the
record is appended first and mutated in place; here the final record
is appended.) -/
def handle_error (recovery_actions : ErrorCategory → Option (List RecoveryAction))
    (s : ManagerState) (exception : String) (category : ErrorCategory)
    (severity : ErrorSeverity) (context : List (String × String)) (now : Nat) :
    HandleResult :=
  let error_info : ErrorInfo :=
    { exception := exception, severity := severity, category := category,
      context := context, timestamp := now, recovery_attempts := 0, resolved := false }
  let r := attempt_recovery recovery_actions error_info
  let finalRecord :=
    if r.success then { r.error_info with resolved := true } else r.error_info
  { recovered := r.success,
    state :=
      { error_history := s.error_history ++ [finalRecord],
        recovery_stats :=
          { total_errors := s.recovery_stats.total_errors + 1,
            resolved_errors :=
              s.recovery_stats.resolved_errors + (if r.success then 1 else 0),
            failed_recoveries :=
              s.recovery_stats.failed_recoveries + (if r.success then 0 else 1) } },
    sleeps := r.sleeps }

/-- One error event fed to the manager (the arguments of a
handle_error call). -/
structure ErrorEvent where
  exception : String
  category : ErrorCategory
  severity : ErrorSeverity
  context : List (String × String)
  timestamp : Nat
deriving DecidableEq, Repr

/-- Run a sequence of handle_error calls against a manager state. -/
def runManager (recovery_actions : ErrorCategory → Option (List RecoveryAction))
    (s : ManagerState) (events : List ErrorEvent) : ManagerState :=
  events.foldl
    (fun st ev =>
      (handle_error recovery_actions st ev.exception ev.category ev.severity
        ev.context ev.timestamp).state)
    s

/-- Outcome of the wrapped function inside the error_handler
decorator: it either returns a value or raises. -/
inductive FuncOutcome (α : Type) where
  | returns (a : α)
  | raises
deriving DecidableEq, Repr

/-- What the decorator's wrapper delivers to its caller: the wrapped
function's value, the swallowed-failure sentinel None, or a re-raised
exception. -/
inductive WrapperOutcome (α : Type) where
  | value (a : α)
  | none_returned
  | reraised
deriving DecidableEq, Repr

/-- The error_handler decorator's wrapper.  On a raise it routes the
exception to the recovery manager when one is reachable from the
arguments (has_manager; otherwise it only logs), then re-raises
exactly when the declared severity is CRITICAL — the boolean returned
by handle_error is discarded — and otherwise returns None. -/
def error_handler (α : Type) (category : ErrorCategory) (severity : ErrorSeverity)
    (recovery_actions : ErrorCategory → Option (List RecoveryAction))
    (s : ManagerState) (has_manager : Bool) (exception : String)
    (context : List (String × String)) (now : Nat)
    (funcResult : FuncOutcome α) : WrapperOutcome α × ManagerState :=
  match funcResult with
  | FuncOutcome.returns a => (WrapperOutcome.value a, s)
  | FuncOutcome.raises =>
    let s1 :=
      if has_manager then
        (handle_error recovery_actions s exception category severity context now).state
      else s
    if severity = ErrorSeverity.CRITICAL then (WrapperOutcome.reraised, s1)
    else (WrapperOutcome.none_returned, s1)

/-- Circuit breaker tri-state mode. -/
inductive CBState where
  | CLOSED
  | OPEN
  | HALF_OPEN
deriving DecidableEq, Repr

/-- Circuit breaker state (class CircuitBreaker).  The last-failure
timestamp is represented relationally: each call receives the elapsed
whole seconds since the last recorded failure. -/
structure CircuitBreaker where
  failure_threshold : Nat
  recovery_timeout : Nat
  failure_count : Nat
  state : CBState
deriving DecidableEq, Repr

/-- Abbreviation for building a CircuitBreaker state. -/
def mkBreaker (ft rt fc : Nat) (st : CBState) : CircuitBreaker :=
  { failure_threshold := ft, recovery_timeout := rt, failure_count := fc, state := st }

/-- Outcome of CircuitBreaker.call: the wrapped operation's result
propagated, its exception re-raised, or the call rejected by the
breaker. -/
inductive CallOutcome where
  | succeeded
  | raised
  | rejected
deriving DecidableEq, Repr

/-- Result of one CircuitBreaker.call: outcome, how many times the
wrapped operation was invoked, and the breaker afterwards. -/
structure CallResult where
  outcome : CallOutcome
  invocations : Nat
  breaker : CircuitBreaker
deriving DecidableEq, Repr

/-- The try-block of CircuitBreaker.call: invoke the operation once;
on success a HALF_OPEN breaker closes and resets its counter; on
failure the counter is incremented, the failure time recorded, and the
breaker opens when the counter meets the threshold. -/
def executeCall (cb : CircuitBreaker) (opSucceeds : Bool) : CallResult :=
  if opSucceeds then
    if cb.state = CBState.HALF_OPEN then
      { outcome := CallOutcome.succeeded, invocations := 1,
        breaker := { cb with state := CBState.CLOSED, failure_count := 0 } }
    else
      { outcome := CallOutcome.succeeded, invocations := 1, breaker := cb }
  else
    let fc := cb.failure_count + 1
    { outcome := CallOutcome.raised, invocations := 1,
      breaker :=
        { cb with failure_count := fc,
                  state := if cb.failure_threshold ≤ fc then CBState.OPEN else cb.state } }

/-- CircuitBreaker.call.  In the OPEN state the source compares
`(datetime.now() - last_failure_time).seconds` — the seconds-of-day
component of the elapsed timedelta, i.e. `elapsed % 86400` — against
recovery_timeout; if it is larger the breaker moves to HALF_OPEN and
attempts the call, otherwise the call is rejected by raising. -/
def CircuitBreaker.call (cb : CircuitBreaker) (elapsed : Nat) (opSucceeds : Bool) :
    CallResult :=
  if cb.state = CBState.OPEN then
    if cb.recovery_timeout < elapsed % 86400 then
      executeCall { cb with state := CBState.HALF_OPEN } opSucceeds
    else
      { outcome := CallOutcome.rejected, invocations := 0, breaker := cb }
  else
    executeCall cb opSucceeds

/-- A CircuitBreaker reachable from a freshly constructed one through
a sequence of calls (each with some elapsed time and some operation
outcome). -/
inductive Reachable : CircuitBreaker → Prop where
  | init (ft rt : Nat) :
      Reachable { failure_threshold := ft, recovery_timeout := rt,
                  failure_count := 0, state := CBState.CLOSED }
  | step (cb : CircuitBreaker) (elapsed : Nat) (opSucceeds : Bool) :
      Reachable cb → Reachable (cb.call elapsed opSucceeds).breaker

/-- n consecutive failing calls (each made with zero elapsed time). -/
def failN (cb : CircuitBreaker) : Nat → CircuitBreaker
  | 0 => cb
  | n + 1 => ((failN cb n).call 0 false).breaker

/-- One recorded sample of SWGOHLogger.performance_data: the dict
appended by record_performance, holding a timestamp and a duration. -/
structure PerfEntry where
  timestamp : Nat
  duration : ℚ
deriving DecidableEq, Repr

/-- SWGOHLogger.record_performance.  performance_data is modelled as a
total map from key strings to lists, defaulting to [] (which makes the
source's missing-key initialisation implicit).  The sample is appended
and the list is cut back to its last 100 elements when it exceeds 100
(Python slice [-100:]). -/
def record_performance (pd : String → List PerfEntry) (module func : String)
    (now : Nat) (duration : ℚ) : String → List PerfEntry :=
  let key := module ++ "." ++ func
  let entries := pd key ++ [{ timestamp := now, duration := duration }]
  let entries :=
    if entries.length > 100 then entries.drop (entries.length - 100) else entries
  fun k => if k = key then entries else pd k

/-- Record a sequence of (timestamp, duration) samples for one
module/function pair, starting from a given performance_data map. -/
def recordAll (pd : String → List PerfEntry) (module func : String)
    (events : List (Nat × ℚ)) : String → List PerfEntry :=
  events.foldl (fun m e => record_performance m module func e.1 e.2) pd

/-- One file of the log directory as seen by cleanup_old_logs: its
name, whether os.path.isfile holds, and its modification timestamp in
whole seconds. -/
structure LogFile where
  name : String
  is_file : Bool
  mtime : Int
deriving DecidableEq, Repr

/-- SWGOHLogger.cleanup_old_logs: with cutoff_date = now minus
days_to_keep days, remove every regular file whose modification time
is strictly before the cutoff.  Returns (remaining, removed). -/
def cleanup_old_logs (now : Int) (days_to_keep : Nat) (files : List LogFile) :
    List LogFile × List LogFile :=
  let cutoff_date := now - (days_to_keep : Int) * 86400
  (files.filter (fun f => !(f.is_file && decide (f.mtime < cutoff_date))),
   files.filter (fun f => f.is_file && decide (f.mtime < cutoff_date)))

/-- The value the shared attempt counter reaches when the recovery
loop runs over a list of actions that all report failure: each action
is executed (incrementing the counter) exactly when the counter is
still below that action's own max_attempts. -/
def sharedGateCount (acts : List RecoveryAction) : Nat :=
  acts.foldl (fun n a => if n < a.max_attempts then n + 1 else n) 0

/- ------------------------------------------------------------------
Theorems
------------------------------------------------------------------ -/

/-- Helper: over a list of actions that all report failure, the
recovery loop returns False and drives the shared counter to the
gated fold of the actions' max_attempts values. -/
theorem attemptLoop_allFail (acts : List RecoveryAction)
    (hfail : ∀ a ∈ acts, ∀ e, a.action e = some false) :
    ∀ (err : ErrorInfo) (sleeps : Nat),
      (attemptLoop acts err sleeps).success = false ∧
      (attemptLoop acts err sleeps).error_info.recovery_attempts =
        acts.foldl (fun n a => if n < a.max_attempts then n + 1 else n)
          err.recovery_attempts := by
  induction acts with
  | nil => intro err sleeps; simp [attemptLoop]
  | cons a rest ih =>
    intro err sleeps
    have hrest : ∀ b ∈ rest, ∀ e, b.action e = some false :=
      fun b hb => hfail b (List.mem_cons_of_mem a hb)
    by_cases hmax : err.recovery_attempts ≥ a.max_attempts
    · have hgate : ¬ err.recovery_attempts < a.max_attempts := not_lt.mpr hmax
      simp only [attemptLoop, if_pos hmax, List.foldl_cons, if_neg hgate]
      exact ih hrest err sleeps
    · have hgate : err.recovery_attempts < a.max_attempts := not_le.mp hmax
      have ha := hfail a (List.mem_cons_self a rest) err
      simp only [attemptLoop, if_neg hmax, ha, List.foldl_cons, if_pos hgate]
      exact ih hrest { err with recovery_attempts := err.recovery_attempts + 1 } _

/-- C1 counterexample: handling a forced failure of category
SCREEN_RECOGNITION, with every recovery action reporting failure on
every execution, returns unresolved — but the record's
recovery_attempts counter ends at 2, not at the sum 3 + 2 + 2 = 7 of
the registered actions' max_attempts. -/
theorem screen_recognition_attempts_ne_sum :
    (handle_error (setup_recovery_actions allFailingMethods) initManagerState "forced"
        ErrorCategory.SCREEN_RECOGNITION ErrorSeverity.MEDIUM [] 0).recovered = false ∧
    ((handle_error (setup_recovery_actions allFailingMethods) initManagerState "forced"
        ErrorCategory.SCREEN_RECOGNITION ErrorSeverity.MEDIUM [] 0).state.error_history.map
      ErrorInfo.recovery_attempts) = [2] ∧
    (((setup_recovery_actions allFailingMethods ErrorCategory.SCREEN_RECOGNITION).getD
        []).map RecoveryAction.max_attempts).sum = 7 ∧
    (2 : Nat) ≠ 7 := by
  refine ⟨by decide, by decide, by decide, by decide⟩

/-- C1 (amended): for every category with registered recovery actions,
handling a forced failure (every action reporting failure on every
execution) terminates and returns unresolved, and the record's
recovery_attempts counter equals the gated count of executed actions —
the fold that increments only while the shared counter is below the
current action's max_attempts — which is strictly less than the sum of
the registered actions' max_attempts. -/
theorem all_fail_recovery_unresolved_gate (m : RecoveryMethods) (c : ErrorCategory)
    (acts : List RecoveryAction) (s : ManagerState) (exc : String)
    (sev : ErrorSeverity) (ctx : List (String × String)) (now : Nat)
    (hreg : setup_recovery_actions m c = some acts)
    (hfail : ∀ a ∈ acts, ∀ e, a.action e = some false) :
    (handle_error (setup_recovery_actions m) s exc c sev ctx now).recovered = false ∧
    ((handle_error (setup_recovery_actions m) s exc c sev ctx now).state.error_history.map
        ErrorInfo.recovery_attempts)
      = s.error_history.map ErrorInfo.recovery_attempts ++ [sharedGateCount acts] ∧
    sharedGateCount acts < (acts.map RecoveryAction.max_attempts).sum := by
  have hrec :
      attempt_recovery (setup_recovery_actions m)
        { exception := exc, severity := sev, category := c, context := ctx,
          timestamp := now, recovery_attempts := 0, resolved := false }
        = attemptLoop acts
            { exception := exc, severity := sev, category := c, context := ctx,
              timestamp := now, recovery_attempts := 0, resolved := false } 0 := by
    simp [attempt_recovery, hreg]
  obtain ⟨h1, h2⟩ := attemptLoop_allFail acts hfail
    { exception := exc, severity := sev, category := c, context := ctx,
      timestamp := now, recovery_attempts := 0, resolved := false } 0
  refine ⟨?_, ?_, ?_⟩
  · simp [handle_error, hrec, h1]
  · simp [handle_error, hrec, h1, h2, sharedGateCount]
  · cases c <;> simp only [setup_recovery_actions] at hreg <;>
      first
        | exact Option.noConfusion hreg
        | (injection hreg with h; subst h; simp [sharedGateCount])

/-- Witness for the amended C1 at category RESOURCE with all-failing
recovery methods. -/
theorem all_fail_recovery_unresolved_gate_witness :
    (handle_error (setup_recovery_actions allFailingMethods) initManagerState "forced"
        ErrorCategory.RESOURCE ErrorSeverity.MEDIUM [] 0).recovered = false ∧
    ((handle_error (setup_recovery_actions allFailingMethods) initManagerState "forced"
        ErrorCategory.RESOURCE ErrorSeverity.MEDIUM [] 0).state.error_history.map
        ErrorInfo.recovery_attempts)
      = initManagerState.error_history.map ErrorInfo.recovery_attempts ++
          [sharedGateCount
            ((setup_recovery_actions allFailingMethods ErrorCategory.RESOURCE).getD [])] ∧
    sharedGateCount
        ((setup_recovery_actions allFailingMethods ErrorCategory.RESOURCE).getD [])
      < ((((setup_recovery_actions allFailingMethods ErrorCategory.RESOURCE).getD []).map
          RecoveryAction.max_attempts)).sum :=
  all_fail_recovery_unresolved_gate allFailingMethods ErrorCategory.RESOURCE
    ((setup_recovery_actions allFailingMethods ErrorCategory.RESOURCE).getD [])
    initManagerState "forced" ErrorSeverity.MEDIUM [] 0 rfl
    (by intro a ha e
        simp only [setup_recovery_actions, Option.getD_some, List.mem_cons,
          List.mem_singleton, List.not_mem_nil, or_false] at ha
        rcases ha with h | h <;> subst h <;> rfl)

/-- C2 counterexample: a CRITICAL-severity error whose recovery
succeeds (handle_error returns True, the record is resolved) is
nonetheless re-raised by the error_handler wrapper, so propagation is
not conditional on the error remaining unresolved. -/
theorem critical_resolved_still_reraised :
    (handle_error (setup_recovery_actions stubRecoveryMethods) initManagerState "boom"
        ErrorCategory.NETWORK ErrorSeverity.CRITICAL [] 0).recovered = true ∧
    (error_handler Unit ErrorCategory.NETWORK ErrorSeverity.CRITICAL
        (setup_recovery_actions stubRecoveryMethods) initManagerState true "boom" [] 0
        FuncOutcome.raises).1 = WrapperOutcome.reraised := by
  refine ⟨by decide, by decide⟩

/-- C2 (amended): for every wrapped operation that raises, the wrapper
swallows the failure and returns None whenever the declared severity
is not CRITICAL, and an exception propagates out of the wrapper if and
only if the operation raised and severity is CRITICAL — regardless of
whether recovery resolved the error (the handle_error result is
discarded). -/
theorem error_handler_propagation (α : Type) (category : ErrorCategory)
    (severity : ErrorSeverity)
    (recovery_actions : ErrorCategory → Option (List RecoveryAction))
    (s : ManagerState) (has_manager : Bool) (exc : String)
    (ctx : List (String × String)) (now : Nat) (funcResult : FuncOutcome α) :
    ((error_handler α category severity recovery_actions s has_manager exc ctx now
        funcResult).1 = WrapperOutcome.reraised
      ↔ funcResult = FuncOutcome.raises ∧ severity = ErrorSeverity.CRITICAL) ∧
    (funcResult = FuncOutcome.raises → severity ≠ ErrorSeverity.CRITICAL →
      (error_handler α category severity recovery_actions s has_manager exc ctx now
        funcResult).1 = WrapperOutcome.none_returned) := by
  cases funcResult with
  | returns a => simp [error_handler]
  | raises =>
    by_cases h : severity = ErrorSeverity.CRITICAL <;> simp [error_handler, h]

/-- Witness for the amended C2: a raising MEDIUM-severity operation is
swallowed and None is returned. -/
theorem error_handler_propagation_witness :
    (error_handler Unit ErrorCategory.NETWORK ErrorSeverity.MEDIUM
        (setup_recovery_actions stubRecoveryMethods) initManagerState true "boom" [] 0
        FuncOutcome.raises).1 = WrapperOutcome.none_returned :=
  (error_handler_propagation Unit ErrorCategory.NETWORK ErrorSeverity.MEDIUM
      (setup_recovery_actions stubRecoveryMethods) initManagerState true "boom" [] 0
      FuncOutcome.raises).2 rfl (by decide)

/-- C6: for every category with no registered recovery-action list,
handle_error returns False and performs zero sleeps (the model is a
total function, so the call also returns normally rather than
raising). -/
theorem unregistered_category_false_no_sleep (m : RecoveryMethods) (s : ManagerState)
    (c : ErrorCategory) (exc : String) (sev : ErrorSeverity)
    (ctx : List (String × String)) (now : Nat)
    (h : setup_recovery_actions m c = none) :
    (handle_error (setup_recovery_actions m) s exc c sev ctx now).recovered = false ∧
    (handle_error (setup_recovery_actions m) s exc c sev ctx now).sleeps = 0 := by
  constructor <;> simp [handle_error, attempt_recovery, h]

/-- Witness for C6 at category SYSTEM (unregistered in the source's
setup_recovery_actions dict, like CONFIGURATION and USER_INPUT). -/
theorem unregistered_category_false_no_sleep_witness :
    (handle_error (setup_recovery_actions stubRecoveryMethods) initManagerState "boom"
        ErrorCategory.SYSTEM ErrorSeverity.MEDIUM [] 0).recovered = false ∧
    (handle_error (setup_recovery_actions stubRecoveryMethods) initManagerState "boom"
        ErrorCategory.SYSTEM ErrorSeverity.MEDIUM [] 0).sleeps = 0 :=
  unregistered_category_false_no_sleep stubRecoveryMethods initManagerState
    ErrorCategory.SYSTEM "boom" ErrorSeverity.MEDIUM [] 0 rfl

/-- Helper for C9: the bookkeeping relations of a single handle_error
call. -/
theorem handle_error_step (recovery_actions : ErrorCategory → Option (List RecoveryAction))
    (s : ManagerState) (exc : String) (c : ErrorCategory) (sev : ErrorSeverity)
    (ctx : List (String × String)) (now : Nat) :
    ((handle_error recovery_actions s exc c sev ctx now).state.error_history.length
        = s.error_history.length + 1) ∧
    ((handle_error recovery_actions s exc c sev ctx now).state.recovery_stats.total_errors
        = s.recovery_stats.total_errors + 1) ∧
    (((handle_error recovery_actions s exc c sev ctx now).state.recovery_stats.resolved_errors
          = s.recovery_stats.resolved_errors + 1 ∧
        (handle_error recovery_actions s exc c sev ctx
            now).state.recovery_stats.failed_recoveries
          = s.recovery_stats.failed_recoveries) ∨
      ((handle_error recovery_actions s exc c sev ctx now).state.recovery_stats.resolved_errors
          = s.recovery_stats.resolved_errors ∧
        (handle_error recovery_actions s exc c sev ctx
            now).state.recovery_stats.failed_recoveries
          = s.recovery_stats.failed_recoveries + 1)) := by
  by_cases h : (attempt_recovery recovery_actions
      { exception := exc, severity := sev, category := c, context := ctx,
        timestamp := now, recovery_attempts := 0, resolved := false }).success <;>
    simp [handle_error, h]

/-- C9: every handle_error call appends exactly one record to
error_history, increments total_errors by exactly one, and increments
exactly one of resolved_errors or failed_recoveries; consequently, for
a freshly constructed manager, after any sequence of handle_error
calls total_errors equals resolved_errors plus failed_recoveries and
equals the length of error_history. -/
theorem handle_error_accounting
    (recovery_actions : ErrorCategory → Option (List RecoveryAction)) :
    (∀ (s : ManagerState) (exc : String) (c : ErrorCategory) (sev : ErrorSeverity)
        (ctx : List (String × String)) (now : Nat),
      ((handle_error recovery_actions s exc c sev ctx now).state.error_history.length
          = s.error_history.length + 1) ∧
      ((handle_error recovery_actions s exc c sev ctx now).state.recovery_stats.total_errors
          = s.recovery_stats.total_errors + 1) ∧
      (((handle_error recovery_actions s exc c sev ctx
              now).state.recovery_stats.resolved_errors
            = s.recovery_stats.resolved_errors + 1 ∧
          (handle_error recovery_actions s exc c sev ctx
              now).state.recovery_stats.failed_recoveries
            = s.recovery_stats.failed_recoveries) ∨
        ((handle_error recovery_actions s exc c sev ctx
              now).state.recovery_stats.resolved_errors
            = s.recovery_stats.resolved_errors ∧
          (handle_error recovery_actions s exc c sev ctx
              now).state.recovery_stats.failed_recoveries
            = s.recovery_stats.failed_recoveries + 1))) ∧
    (∀ events : List ErrorEvent,
      (runManager recovery_actions initManagerState events).recovery_stats.total_errors
          = (runManager recovery_actions initManagerState
              events).recovery_stats.resolved_errors +
            (runManager recovery_actions initManagerState
              events).recovery_stats.failed_recoveries ∧
      (runManager recovery_actions initManagerState events).recovery_stats.total_errors
          = (runManager recovery_actions initManagerState events).error_history.length) := by
  refine ⟨fun s exc c sev ctx now => handle_error_step recovery_actions s exc c sev ctx now,
    fun events => ?_⟩
  suffices h : ∀ (evs : List ErrorEvent) (s : ManagerState),
      s.recovery_stats.total_errors
          = s.recovery_stats.resolved_errors + s.recovery_stats.failed_recoveries →
      s.recovery_stats.total_errors = s.error_history.length →
      (runManager recovery_actions s evs).recovery_stats.total_errors
          = (runManager recovery_actions s evs).recovery_stats.resolved_errors +
            (runManager recovery_actions s evs).recovery_stats.failed_recoveries ∧
      (runManager recovery_actions s evs).recovery_stats.total_errors
          = (runManager recovery_actions s evs).error_history.length by
    exact h events initManagerState rfl rfl
  intro evs
  induction evs with
  | nil => intro s h1 h2; exact ⟨h1, h2⟩
  | cons ev rest ih =>
    intro s h1 h2
    obtain ⟨hl, ht, hr⟩ :=
      handle_error_step recovery_actions s ev.exception ev.category ev.severity
        ev.context ev.timestamp
    have hstep := ih
      (handle_error recovery_actions s ev.exception ev.category ev.severity
        ev.context ev.timestamp).state
    refine ?_
    rcases hr with ⟨hres, hfail⟩ | ⟨hres, hfail⟩ <;>
      exact hstep (by omega) (by omega)

/-- C10: a recovery action that raises consumes none of the attempt
budget — the shared counter is incremented only after an action
returns without raising — and the loop proceeds to the next registered
action (the loop's sleep before the attempt still happens). -/
theorem raising_action_consumes_no_budget (a : RecoveryAction)
    (rest : List RecoveryAction) (err : ErrorInfo) (sleeps : Nat)
    (hgate : err.recovery_attempts < a.max_attempts)
    (hraise : a.action err = none) :
    attemptLoop (a :: rest) err sleeps
      = attemptLoop rest err
          (if a.delay_between_attempts > 0 then sleeps + 1 else sleeps) := by
  have hmax : ¬ err.recovery_attempts ≥ a.max_attempts := not_le.mpr hgate
  simp only [attemptLoop, if_neg hmax, hraise]

/-- Witness for C10: a single raising action with budget 3 and delay 1
leaves the counter at 0, performs the pre-attempt sleep, and falls
through to the (empty) remainder of the action list. -/
theorem raising_action_consumes_no_budget_witness :
    attemptLoop
        [{ name := "raising", action := fun _ => none, max_attempts := 3,
           delay_between_attempts := 1, conditions := none }]
        { exception := "boom", severity := ErrorSeverity.MEDIUM,
          category := ErrorCategory.NETWORK, context := [], timestamp := 0,
          recovery_attempts := 0, resolved := false } 0
      = attemptLoop []
          { exception := "boom", severity := ErrorSeverity.MEDIUM,
            category := ErrorCategory.NETWORK, context := [], timestamp := 0,
            recovery_attempts := 0, resolved := false }
          (if (1 : ℚ) > 0 then 0 + 1 else 0) :=
  raising_action_consumes_no_budget
    { name := "raising", action := fun _ => none, max_attempts := 3,
      delay_between_attempts := 1, conditions := none } []
    { exception := "boom", severity := ErrorSeverity.MEDIUM,
      category := ErrorCategory.NETWORK, context := [], timestamp := 0,
      recovery_attempts := 0, resolved := false } 0 (by decide) rfl

/-- C3: evaluation at the failing input.  A tripped breaker (threshold
1, recovery_timeout 60 seconds, one recorded failure) receives a call
exactly one day (86400 s) after the failure.  The total elapsed time
exceeds the 60 s recovery timeout, yet the source compares the
timedelta's seconds-of-day component (86400 % 86400 = 0), so the call
is rejected with the wrapped operation never invoked and the breaker
still OPEN, instead of transitioning to HALF_OPEN and attempting one
trial. -/
theorem open_breaker_day_elapsed_rejected :
    (60 : Nat) < 86400 ∧
    (86400 : Nat) % 86400 = 0 ∧
    (((mkBreaker 1 60 0 CBState.CLOSED).call 0 false).breaker.state = CBState.OPEN) ∧
    ((((mkBreaker 1 60 0 CBState.CLOSED).call 0 false).breaker.call 86400
        true).outcome = CallOutcome.rejected) ∧
    ((((mkBreaker 1 60 0 CBState.CLOSED).call 0 false).breaker.call 86400
        true).invocations = 0) ∧
    ((((mkBreaker 1 60 0 CBState.CLOSED).call 0 false).breaker.call 86400
        true).breaker.state = CBState.OPEN) := by
  refine ⟨by decide, by decide, by decide, by decide, by decide, by decide⟩

/-- Helper for C4: while the failure count stays below the threshold,
consecutive failing calls leave a fresh breaker CLOSED with the count
equal to the number of failures. -/
theorem failN_below_threshold_closed (ft rt : Nat) :
    ∀ i : Nat, i < ft →
      failN { failure_threshold := ft, recovery_timeout := rt, failure_count := 0,
              state := CBState.CLOSED } i
        = { failure_threshold := ft, recovery_timeout := rt, failure_count := i,
            state := CBState.CLOSED } := by
  intro i
  induction i with
  | zero => intro _; rfl
  | succ n ih =>
    intro h
    have hn : n < ft := Nat.lt_of_succ_lt h
    have hle : ¬ ft ≤ n + 1 := by omega
    simp only [failN, ih hn]
    simp [CircuitBreaker.call, executeCall, hle]

/-- C4: any failing call that actually reaches the wrapped operation
and whose increment brings the failure count to or past the threshold
leaves the breaker OPEN (never CLOSED); in particular a fresh CLOSED
breaker is OPEN after exactly failure_threshold consecutive failing
calls. -/
theorem failure_threshold_forces_open :
    (∀ (cb : CircuitBreaker) (elapsed : Nat),
      (cb.call elapsed false).outcome = CallOutcome.raised →
      cb.failure_threshold ≤ (cb.call elapsed false).breaker.failure_count →
      (cb.call elapsed false).breaker.state = CBState.OPEN) ∧
    (∀ ft rt : Nat, 0 < ft →
      (failN { failure_threshold := ft, recovery_timeout := rt, failure_count := 0,
               state := CBState.CLOSED } ft).state = CBState.OPEN) := by
  constructor
  · intro cb elapsed hout hcount
    by_cases hs : cb.state = CBState.OPEN
    · by_cases ht : cb.recovery_timeout < elapsed % 86400
      · simp only [CircuitBreaker.call, hs, if_pos rfl, if_pos ht, executeCall,
          Bool.false_eq_true, if_false] at hcount ⊢
        simp only [hcount, if_pos] at *
        simp [hcount]
      · simp [CircuitBreaker.call, hs, ht] at hout
    · simp only [CircuitBreaker.call, if_neg hs, executeCall, Bool.false_eq_true,
        if_false] at hcount ⊢
      simp [hcount]
  · intro ft rt h
    cases ft with
    | zero => omega
    | succ k =>
      have hclosed := failN_below_threshold_closed (k + 1) rt k (Nat.lt_succ_self k)
      simp only [failN, hclosed]
      simp [CircuitBreaker.call, executeCall]

/-- Witness for C4: a fresh breaker with threshold 2 is OPEN after two
consecutive failing calls. -/
theorem failure_threshold_forces_open_witness :
    (failN { failure_threshold := 2, recovery_timeout := 60, failure_count := 0,
             state := CBState.CLOSED } 2).state = CBState.OPEN :=
  failure_threshold_forces_open.2 2 60 (by decide)

/-- Helper: executeCall on a succeeding operation from HALF_OPEN. -/
theorem executeCall_true_half_open (cb : CircuitBreaker)
    (h : cb.state = CBState.HALF_OPEN) :
    executeCall cb true =
      { outcome := CallOutcome.succeeded, invocations := 1,
        breaker := { cb with state := CBState.CLOSED, failure_count := 0 } } := by
  simp [executeCall, h]

/-- Helper: executeCall on a succeeding operation outside HALF_OPEN
leaves the breaker unchanged. -/
theorem executeCall_true_not_half_open (cb : CircuitBreaker)
    (h : cb.state ≠ CBState.HALF_OPEN) :
    executeCall cb true =
      { outcome := CallOutcome.succeeded, invocations := 1, breaker := cb } := by
  simp [executeCall, h]

/-- Helper: executeCall on a failing operation increments the counter
and opens the breaker exactly when the threshold is reached. -/
theorem executeCall_false_eq (cb : CircuitBreaker) :
    executeCall cb false =
      { outcome := CallOutcome.raised, invocations := 1,
        breaker :=
          { cb with failure_count := cb.failure_count + 1,
                    state := if cb.failure_threshold ≤ cb.failure_count + 1 then
                        CBState.OPEN
                      else cb.state } } := by
  simp [executeCall]

/-- Helper: an OPEN breaker whose seconds-of-day elapsed component
exceeds the timeout attempts the call from HALF_OPEN. -/
theorem call_open_past_timeout (cb : CircuitBreaker) (elapsed : Nat) (ok : Bool)
    (hs : cb.state = CBState.OPEN) (ht : cb.recovery_timeout < elapsed % 86400) :
    cb.call elapsed ok = executeCall { cb with state := CBState.HALF_OPEN } ok := by
  simp [CircuitBreaker.call, hs, ht]

/-- Helper: an OPEN breaker within the timeout rejects the call
untouched. -/
theorem call_open_within_timeout (cb : CircuitBreaker) (elapsed : Nat) (ok : Bool)
    (hs : cb.state = CBState.OPEN) (ht : ¬ cb.recovery_timeout < elapsed % 86400) :
    cb.call elapsed ok =
      { outcome := CallOutcome.rejected, invocations := 0, breaker := cb } := by
  simp [CircuitBreaker.call, hs, ht]

/-- Helper: a breaker that is not OPEN executes the call directly. -/
theorem call_not_open (cb : CircuitBreaker) (elapsed : Nat) (ok : Bool)
    (hs : cb.state ≠ CBState.OPEN) :
    cb.call elapsed ok = executeCall cb ok := by
  simp [CircuitBreaker.call, hs]

/-- Helper for C5: reachability invariant — whenever a reachable
breaker is not CLOSED, its failure count has reached the threshold
(the counter is never reset on the OPEN or HALF_OPEN paths). -/
theorem reachable_tripped_count (cb : CircuitBreaker) (h : Reachable cb) :
    cb.state ≠ CBState.CLOSED → cb.failure_threshold ≤ cb.failure_count := by
  induction h with
  | init ft rt => intro hc; simp at hc
  | step cb elapsed ok hr ih =>
    intro hc
    by_cases hs : cb.state = CBState.OPEN
    · by_cases ht : cb.recovery_timeout < elapsed % 86400
      · rw [call_open_past_timeout cb elapsed ok hs ht] at hc ⊢
        cases ok
        · rw [executeCall_false_eq] at hc ⊢
          have hcb : cb.failure_threshold ≤ cb.failure_count := ih (by simp [hs])
          simp only []
          omega
        · rw [executeCall_true_half_open _ rfl] at hc
          simp at hc
      · rw [call_open_within_timeout cb elapsed ok hs ht] at hc ⊢
        exact ih hc
    · rw [call_not_open cb elapsed ok hs] at hc ⊢
      cases ok
      · rw [executeCall_false_eq] at hc ⊢
        by_cases hle : cb.failure_threshold ≤ cb.failure_count + 1
        · simpa using hle
        · simp only [if_neg hle] at hc
          have := ih hc
          omega
      · by_cases hh : cb.state = CBState.HALF_OPEN
        · rw [executeCall_true_half_open cb hh] at hc
          simp at hc
        · rw [executeCall_true_not_half_open cb hh] at hc ⊢
          exact ih hc

/-- C5: the HALF_OPEN trial.  For every reachable breaker that is OPEN
and receives a call after the timeout check passes (so the breaker
moves to HALF_OPEN and one trial is attempted): a successful trial
leaves the breaker CLOSED with the failure counter reset to 0, and a
failing trial leaves it OPEN. -/
theorem half_open_trial (cb : CircuitBreaker) (h : Reachable cb)
    (hs : cb.state = CBState.OPEN) (elapsed : Nat)
    (ht : cb.recovery_timeout < elapsed % 86400) :
    ((cb.call elapsed true).breaker.state = CBState.CLOSED ∧
     (cb.call elapsed true).breaker.failure_count = 0) ∧
    (cb.call elapsed false).breaker.state = CBState.OPEN := by
  have hcount : cb.failure_threshold ≤ cb.failure_count :=
    reachable_tripped_count cb h (by simp [hs])
  have hle : cb.failure_threshold ≤ cb.failure_count + 1 := Nat.le_succ_of_le hcount
  refine ⟨⟨?_, ?_⟩, ?_⟩ <;>
    simp [CircuitBreaker.call, hs, ht, executeCall, hle]

/-- Witness for C5: a breaker tripped by one failure (threshold 1,
recovery timeout 0) makes a trial one second later; a successful trial
closes it and resets the counter, a failing trial leaves it OPEN. -/
theorem half_open_trial_witness :
    ((((mkBreaker 1 0 0 CBState.CLOSED).call 0 false).breaker.call 1
        true).breaker.state = CBState.CLOSED ∧
     (((mkBreaker 1 0 0 CBState.CLOSED).call 0 false).breaker.call 1
        true).breaker.failure_count = 0) ∧
    (((mkBreaker 1 0 0 CBState.CLOSED).call 0 false).breaker.call 1
        false).breaker.state = CBState.OPEN :=
  half_open_trial _
    (Reachable.step _ 0 false (Reachable.init 1 0)) (by decide) 1 (by decide)

/-- Helper: the window trim of record_performance (cut to the last 100
only when the list exceeds 100) is the unconditional last-100
suffix. -/
theorem trim_eq_drop (l : List PerfEntry) :
    (if l.length > 100 then l.drop (l.length - 100) else l)
      = l.drop (l.length - 100) := by
  by_cases h : l.length > 100
  · simp [h]
  · have h0 : l.length - 100 = 0 := by omega
    simp [h, h0]

/-- Helper: appending one sample to the last-100 suffix and taking the
last-100 suffix again equals the last-100 suffix of the whole
history. -/
theorem lastN_append_one (all : List PerfEntry) (e : PerfEntry) :
    ((all.drop (all.length - 100)) ++ [e]).drop
        (((all.drop (all.length - 100)) ++ [e]).length - 100)
      = (all ++ [e]).drop ((all ++ [e]).length - 100) := by
  by_cases h : all.length ≤ 100
  · have h0 : all.length - 100 = 0 := by omega
    simp [h0]
  · have hx : (all.drop (all.length - 100)).length = 100 := by
      rw [List.length_drop]; omega
    have h1 : ((all.drop (all.length - 100)) ++ [e]).length - 100 = 1 := by
      simp [hx]
    have h2 : (all ++ [e]).length - 100 = all.length - 99 := by
      simp
    rw [h1, h2]
    rw [List.drop_append_of_le_length (by rw [hx]; omega)]
    rw [List.drop_append_of_le_length (by omega)]
    rw [List.drop_drop]
    have h3 : all.length - 100 + 1 = all.length - 99 := by omega
    rw [h3]

/-- Helper: the per-key window after any recording sequence is the
last-100 suffix of the full recorded history at that key. -/
theorem recordAll_window (module func : String) :
    ∀ (events : List (Nat × ℚ)) (pd : String → List PerfEntry)
      (all : List PerfEntry),
      pd (module ++ "." ++ func) = all.drop (all.length - 100) →
      recordAll pd module func events (module ++ "." ++ func)
        = (all ++ events.map
              (fun e => { timestamp := e.1, duration := e.2 : PerfEntry })).drop
            ((all ++ events.map
              (fun e => { timestamp := e.1, duration := e.2 : PerfEntry })).length - 100) := by
  intro events
  induction events with
  | nil => intro pd all h; simpa [recordAll] using h
  | cons e rest ih =>
    intro pd all h
    have hstep : (record_performance pd module func e.1 e.2) (module ++ "." ++ func)
        = (all ++ [{ timestamp := e.1, duration := e.2 : PerfEntry }]).drop
            ((all ++ [{ timestamp := e.1, duration := e.2 : PerfEntry }]).length - 100) := by
      simp only [record_performance, if_pos rfl]
      rw [h, trim_eq_drop, lastN_append_one]
    have hrec := ih (record_performance pd module func e.1 e.2)
      (all ++ [{ timestamp := e.1, duration := e.2 : PerfEntry }]) hstep
    simpa [recordAll, List.append_assoc] using hrec

/-- C7: for every operation key, after recording any sequence of
durations from a fresh logger, the stored window holds at most 100
entries and is exactly the most recently recorded samples in
recording (FIFO) order — the last-100 suffix of the full history (so
recording 150 samples keeps exactly the most recent 100). -/
theorem performance_window_keeps_last_100 (module func : String)
    (events : List (Nat × ℚ)) :
    (recordAll (fun _ => []) module func events (module ++ "." ++ func)).length ≤ 100 ∧
    recordAll (fun _ => []) module func events (module ++ "." ++ func)
      = (events.map (fun e => { timestamp := e.1, duration := e.2 : PerfEntry })).drop
          (events.length - 100) := by
  have h := recordAll_window module func events (fun _ => []) [] (by simp)
  simp only [List.nil_append] at h
  refine ⟨?_, ?_⟩
  · rw [h, List.length_drop, List.length_map]
    omega
  · rw [h, List.length_map]

/-- C8: log-retention cleanup with a cutoff of days_to_keep days
before now removes exactly the regular files whose modification time
is strictly older than the cutoff; every file whose modification time
is at or after the cutoff (and every non-regular-file entry)
remains. -/
theorem cleanup_removes_exactly_older (now : Int) (days_to_keep : Nat)
    (files : List LogFile) (f : LogFile) :
    (f ∈ (cleanup_old_logs now days_to_keep files).2
      ↔ f ∈ files ∧ f.is_file = true ∧
          f.mtime < now - (days_to_keep : Int) * 86400) ∧
    (f ∈ (cleanup_old_logs now days_to_keep files).1
      ↔ f ∈ files ∧ ¬(f.is_file = true ∧
          f.mtime < now - (days_to_keep : Int) * 86400)) := by
  constructor <;>
    simp [cleanup_old_logs, List.mem_filter, and_assoc, not_and, Decidable.imp_iff_not_or]

end SWGOH
